import Mathlib

/-!
Verification development for the template-encrypted-player repository.

Two command-line utilities are embedded here, following the Python source:

* `register.py` (RegistrationClient): the configuration phase of `main`
  (environment reading, stripping, validation, request construction) is
  embedded as `register_main`, and the response-handling phase (HTTP status
  check, JSON parse fallback, branching on the `status` field) as
  `handleResponse` over a small JSON value type `JVal` that also models
  Python truthiness and the dynamic-type failure of calling `.lower()` on a
  non-string.

* `scripts/setup_encryption.py` (EncryptionSetup): `main` and its helpers
  (`key_exists`, `generate_key`, `encrypt_strategy`, `export_secret_key`)
  are embedded as `setup_main`, a function from the parsed arguments, the
  interactively acquired passphrase and an external-world record to the
  trace of observable events (external tool invocations with their argv,
  file writes, informational prints) plus the outcome.  The `__main__`
  exception handler for failures of the external tool is embedded as
  `toplevel_handler` / `tool_failure_observed`.  `base64.b64encode` on the
  exported key bytes is embedded as `b64e`, with a decoder `b64d` used to
  state the export round-trip property.
-/

/-! ## Python string helpers -/

/-- The characters Python `str.strip()` removes. -/
def pySpace (c : Char) : Bool :=
  c == ' ' || c == '\t' || c == '\n' || c == '\r' || c == '\x0b' || c == '\x0c'

/-- Python `str.strip()`: drop leading and trailing whitespace. -/
def pyStrip (s : String) : String :=
  ⟨((s.data.dropWhile pySpace).reverse.dropWhile pySpace).reverse⟩

/-- Python `str.rstrip("/")`: drop trailing slashes (register.py line 38). -/
def pyRstripSlash (s : String) : String :=
  ⟨(s.data.reverse.dropWhile (fun c => c == '/')).reverse⟩

/-! ## RegistrationClient: configuration phase (register.py, main lines 14-52) -/

/-- The process environment: a partial map from variable names to values. -/
def Env : Type := String → Option String

/-- Python `os.getenv(k, d)`: the variable's value if defined, else `d`. -/
def getenv (env : Env) (k : String) (d : String) : String :=
  (env k).getD d

/-- register.py line 14: `server_url = os.getenv("SERVER_URL", "").strip()`. -/
def SERVER_URL (env : Env) : String := pyStrip (getenv env "SERVER_URL" "")

/-- register.py line 15: `github_token = os.getenv("GAME_TOKEN", "").strip()`. -/
def GAME_TOKEN (env : Env) : String := pyStrip (getenv env "GAME_TOKEN" "")

/-- register.py line 10: `PLAYER_NAME = os.getenv("PLAYER_NAME", "encrypted-template").strip()`. -/
def PLAYER_NAME (env : Env) : String :=
  pyStrip (getenv env "PLAYER_NAME" "encrypted-template")

/-- register.py line 16:
`github_repo = os.getenv("GITHUB_REPOSITORY", os.getenv("GITHUB_REPO", "")).strip()`.
The inner `getenv` supplies the default, so `GITHUB_REPO` is consulted only
when `GITHUB_REPOSITORY` is entirely unset. -/
def GITHUB_REPO_val (env : Env) : String :=
  pyStrip ((env "GITHUB_REPOSITORY").getD ((env "GITHUB_REPO").getD ""))

/-- Python `s.startswith(pre)` over the character lists. -/
def listStarts : List Char → List Char → Bool
  | _, [] => true
  | [], _ :: _ => false
  | c :: cs, d :: ds => c == d && listStarts cs ds

/-- register.py line 35: `server_url.startswith(("http://", "https://"))`. -/
def urlSchemeOk (s : String) : Bool :=
  listStarts s.data "http://".data || listStarts s.data "https://".data

/-- The HTTP POST that register.py lines 44-52 would issue: the composed
endpoint URL, the Authorization header, the JSON body fields, and the fixed
timeout. -/
structure RegRequest where
  url : String
  authHeader : String
  playerName : String
  githubRepo : String
  timeoutSeconds : Nat
deriving DecidableEq, Repr

/-- Outcome of the configuration phase: either `SystemExit` with a message
(no HTTP request is ever made on this path) or the request to issue. -/
inductive RegOutcome where
  | fatal (msg : String)
  | proceed (req : RegRequest)
deriving DecidableEq, Repr

/-- Whether the configuration phase ended in `SystemExit`. -/
def RegOutcome.isFatal : RegOutcome → Bool
  | RegOutcome.fatal _ => true
  | RegOutcome.proceed _ => false

/-- register.py `main`, lines 14-52: read and strip the four configuration
values, validate them in order with value-specific fatal messages, validate
the URL scheme, strip trailing slashes, and construct the request.  The
diagnostic print of line 18 carries no data and is omitted. -/
def register_main (env : Env) : RegOutcome :=
  let server_url := SERVER_URL env
  let github_token := GAME_TOKEN env
  let player_name := PLAYER_NAME env
  let github_repo := GITHUB_REPO_val env
  if server_url = "" then RegOutcome.fatal "SERVER_URL environment variable not set"
  else if github_token = "" then RegOutcome.fatal "GAME_TOKEN environment variable not set"
  else if player_name = "" then RegOutcome.fatal "PLAYER_NAME environment variable not set"
  else if github_repo = "" then
    RegOutcome.fatal "GITHUB_REPO or GITHUB_REPOSITORY environment variable not set"
  else if !urlSchemeOk server_url then
    RegOutcome.fatal ("SERVER_URL must include scheme (http/https); got " ++ server_url)
  else
    let base := pyRstripSlash server_url
    RegOutcome.proceed ⟨base ++ "/register", "Bearer " ++ github_token,
      player_name, github_repo, 10⟩

/-! ## RegistrationClient: response phase (register.py, main lines 56-75) -/

/-- JSON values as produced by `response.json()`, covering the Python values
the response handler can meet. -/
inductive JVal where
  | null
  | jb (b : Bool)
  | jn (n : Int)
  | js (s : String)
  | jarr (n : Nat)
  | jobj (fields : List (String × JVal))

/-- Python truthiness of a `JVal` (for `x or y`). -/
def jTruthy : JVal → Bool
  | JVal.null => false
  | JVal.jb b => b
  | JVal.jn n => n != 0
  | JVal.js s => s != ""
  | JVal.jarr n => n != 0
  | JVal.jobj fs => !fs.isEmpty

/-- Python `x or y`: `x` if truthy, else `y`. -/
def pyOr (x y : JVal) : JVal := if jTruthy x then x else y

/-- The dynamic-type errors the response handler can raise. -/
inductive PyErr where
  | attributeError
deriving DecidableEq

/-- Python `payload.get(k)` with a `None` result for a missing key, raising
`AttributeError` when the receiver is not a dict. -/
def pyDictGet : JVal → String → Except PyErr JVal
  | JVal.jobj fs, k => Except.ok ((fs.lookup k).getD JVal.null)
  | _, _ => Except.error PyErr.attributeError

/-- Python `s.lower()` on a string, over the character list (ASCII case
mapping, which covers the status tokens the handler compares against). -/
def pyLower (s : String) : String := ⟨s.data.map Char.toLower⟩

/-- Python `x.lower()`: defined on strings, `AttributeError` otherwise. -/
def pyLowerStr : JVal → Except PyErr String
  | JVal.js s => Except.ok (pyLower s)
  | _ => Except.error PyErr.attributeError

/-- `requests.Response.ok`: true exactly when the status code is below 400. -/
def response_ok (statusCode : Nat) : Bool := statusCode < 400

/-- The observable result of the response phase. -/
inductive RespOutcome where
  | fatal (msg : String)
  | notJsonNotice
  | registeredMsg (playerName playerId : JVal)
  | alreadyMsg (playerName playerId : JVal)
  | fallback (payload : JVal)

/-- register.py lines 56-75: a non-ok status is `SystemExit` with the code
and body; a body that did not parse as JSON degrades to the "not JSON"
notice; otherwise branch on `(payload.get("status") or "").lower()`.
`body = none` models `response.json()` raising `ValueError`. -/
def handleResponse (statusCode : Nat) (text : String) (body : Option JVal) :
    Except PyErr RespOutcome :=
  if !response_ok statusCode then
    Except.ok (RespOutcome.fatal
      ("Registration failed: " ++ toString statusCode ++ " " ++ text))
  else
    match body with
    | none => Except.ok RespOutcome.notJsonNotice
    | some payload =>
      (pyDictGet payload "status").bind fun sv =>
      (pyLowerStr (pyOr sv (JVal.js ""))).bind fun status =>
      if status = "registered" then
        (pyDictGet payload "player_name").bind fun pn =>
        (pyDictGet payload "player_id").bind fun pid =>
        Except.ok (RespOutcome.registeredMsg pn pid)
      else if status = "already_registered" then
        (pyDictGet payload "player_name").bind fun pn =>
        (pyDictGet payload "player_id").bind fun pid =>
        Except.ok (RespOutcome.alreadyMsg pn pid)
      else
        Except.ok (RespOutcome.fallback payload)

/-- Process exit code implied by a response-phase result: an unhandled
dynamic-type error or a `SystemExit` with a message exits non-zero, every
other branch returns from `main` normally (exit 0). -/
def respExitCode : Except PyErr RespOutcome → Nat
  | Except.error _ => 1
  | Except.ok (RespOutcome.fatal _) => 1
  | Except.ok _ => 0

/-! ## base64 (setup_encryption.py line 66: `base64.b64encode(secret)`)

Bytes are natural numbers below 256; the encoded form is the list of ASCII
codes the Python function produces, including `=` (code 61) padding. -/

/-- The base64 alphabet as a map from a sextet to its ASCII code. -/
def b64chr (n : Nat) : Nat :=
  if n < 26 then 65 + n
  else if n < 52 then 97 + (n - 26)
  else if n < 62 then 48 + (n - 52)
  else if n = 62 then 43
  else 47

/-- Inverse of `b64chr`: the sextet an ASCII code stands for, if any. -/
def b64ord (c : Nat) : Option Nat :=
  if 65 ≤ c ∧ c ≤ 90 then some (c - 65)
  else if 97 ≤ c ∧ c ≤ 122 then some (c - 97 + 26)
  else if 48 ≤ c ∧ c ≤ 57 then some (c - 48 + 52)
  else if c = 43 then some 62
  else if c = 47 then some 63
  else none

/-- `base64.b64encode`: encode bytes three at a time into four ASCII codes,
padding a trailing group of one or two bytes with `=` (61). -/
def b64e : List Nat → List Nat
  | [] => []
  | [a] => [b64chr (a / 4), b64chr (a % 4 * 16), 61, 61]
  | [a, b] => [b64chr (a / 4), b64chr (a % 4 * 16 + b / 16), b64chr (b % 16 * 4), 61]
  | a :: b :: c :: t =>
    b64chr (a / 4) :: b64chr (a % 4 * 16 + b / 16) ::
      b64chr (b % 16 * 4 + c / 64) :: b64chr (c % 64) :: b64e t

/-- A base64 decoder: consume four ASCII codes at a time, honouring `=`
padding in the final group. -/
def b64d : List Nat → Option (List Nat)
  | [] => some []
  | w :: x :: y :: z :: t =>
    if y = 61 ∧ z = 61 ∧ t = [] then
      (b64ord w).bind fun a =>
      (b64ord x).bind fun b =>
      some [a * 4 + b / 16]
    else if z = 61 ∧ t = [] then
      (b64ord w).bind fun a =>
      (b64ord x).bind fun b =>
      (b64ord y).bind fun c =>
      some [a * 4 + b / 16, b % 16 * 16 + c / 4]
    else
      (b64ord w).bind fun a =>
      (b64ord x).bind fun b =>
      (b64ord y).bind fun c =>
      (b64ord z).bind fun d =>
      (b64d t).bind fun r =>
      some ((a * 4 + b / 16) :: (b % 16 * 16 + c / 4) :: (c % 4 * 64 + d) :: r)
  | _ => none

theorem b64ord_b64chr {n : Nat} (h : n < 64) : b64ord (b64chr n) = some n := by
  have : ∀ m : Fin 64, b64ord (b64chr m.val) = some m.val := by decide
  exact this ⟨n, h⟩

theorem b64chr_ne_61 {n : Nat} (h : n < 64) : b64chr n ≠ 61 := by
  have : ∀ m : Fin 64, b64chr m.val ≠ 61 := by decide
  exact this ⟨n, h⟩

/-- Decoding inverts encoding on every byte string. -/
theorem b64_roundtrip : ∀ bs : List Nat, (∀ b ∈ bs, b < 256) →
    b64d (b64e bs) = some bs
  | [], _ => rfl
  | [a], h => by
    have ha : a < 256 := h a (by simp)
    rw [b64e, b64d]
    rw [if_pos ⟨rfl, rfl, rfl⟩]
    rw [b64ord_b64chr (by omega), b64ord_b64chr (by omega)]
    simp only [Option.some_bind, Option.some.injEq, List.cons.injEq, and_true]
    omega
  | [a, b], h => by
    have ha : a < 256 := h a (by simp)
    have hb : b < 256 := h b (by simp)
    rw [b64e, b64d]
    rw [if_neg (by
      rintro ⟨h61, -, -⟩
      exact b64chr_ne_61 (show b % 16 * 4 < 64 by omega) h61)]
    rw [if_pos ⟨rfl, rfl⟩]
    rw [b64ord_b64chr (by omega), b64ord_b64chr (by omega), b64ord_b64chr (by omega)]
    simp only [Option.some_bind, Option.some.injEq, List.cons.injEq, and_true]
    constructor <;> omega
  | a :: b :: c :: t, h => by
    have ha : a < 256 := h a (by simp)
    have hb : b < 256 := h b (by simp)
    have hc : c < 256 := h c (by simp)
    have ih := b64_roundtrip t (fun x hx => h x (by simp [hx]))
    rw [b64e, b64d]
    rw [if_neg (by
      rintro ⟨h61, -, -⟩
      exact b64chr_ne_61 (show b % 16 * 4 + c / 64 < 64 by omega) h61)]
    rw [if_neg (by
      rintro ⟨h61, -⟩
      exact b64chr_ne_61 (show c % 64 < 64 by omega) h61)]
    rw [b64ord_b64chr (by omega), b64ord_b64chr (by omega),
      b64ord_b64chr (by omega), b64ord_b64chr (by omega), ih]
    simp only [Option.some_bind, Option.some.injEq, List.cons.injEq, and_true]
    refine ⟨by omega, by omega, by omega⟩

/-! ## EncryptionSetup (scripts/setup_encryption.py)

The observable behaviour of one run of `main` is a trace of events: external
tool invocations (with the exact argv list built by the source and whether
their output is captured), file writes, and informational prints.  External
calls are traced at the point the source issues them; a failing call aborts
the run through the `__main__` handler, which is modelled separately by
`tool_failure_observed`. -/

/-- One observable step of EncryptionSetup. -/
inductive SetupEvent where
  | extCall (argv : List String) (capture : Bool)
  | fileWrite (path : String) (contents : List Nat)
  | info (msg : String)
deriving DecidableEq

/-- How the run ends: `SystemExit` with a message (exit code 1) or success. -/
inductive SetupOutcome where
  | fatal (msg : String)
  | success
deriving DecidableEq

/-- The parsed command line (`parse_args`).  `recipientFlag` is `""` when
`--recipient` was not given (Python `None`, falsy), `playerNameArg` is the
positional argument after its environment-variable default was applied. -/
structure SetupArgs where
  recipientFlag : String
  playerNameArg : String
  expire : String
  source : String
  output : String
deriving DecidableEq

/-- What the external world supplies to one run: the exit code of the
`gpg --list-secret-keys` probe, whether the plaintext source file exists,
and the bytes the secret-key export writes to stdout. -/
structure SetupWorld where
  probeExit : Nat
  sourceExists : Bool
  exportedSecret : List Nat

/-- setup_encryption.py line 131: `recipient = args.recipient or args.player_name`. -/
def resolveRecipient (a : SetupArgs) : String :=
  if a.recipientFlag = "" then a.playerNameArg else a.recipientFlag

/-- Argv of the keystore probe (`key_exists`, lines 25-30). -/
def key_exists_argv (recipient : String) : List String :=
  ["gpg", "--batch", "--list-secret-keys", recipient]

/-- `key_exists` (lines 23-33): `subprocess.run(..., check=True)` raises
`CalledProcessError` exactly on a non-zero exit, which the function catches
and turns into `False`; a zero exit yields `True`.  No other outcome exists:
a non-success probe exit is never escalated as an error. -/
def key_exists (probeExit : Nat) : Bool :=
  probeExit = 0

/-- Argv of `generate_key` (lines 38-52): the passphrase is the fourth
element, after the literal `--passphrase` flag. -/
def generate_key_argv (recipient passphrase expire : String) : List String :=
  ["gpg", "--batch", "--passphrase", passphrase, "--pinentry-mode", "loopback",
   "--quick-gen-key", recipient, "rsa4096", "sign,encrypt", expire]

/-- Argv of the encryption call in `encrypt_strategy` (lines 76-88). -/
def encrypt_argv (recipient source output : String) : List String :=
  ["gpg", "--batch", "--yes", "--output", output, "--encrypt",
   "--recipient", recipient, source]

/-- Argv of the export call in `export_secret_key` (lines 57-60). -/
def export_argv (recipient : String) : List String :=
  ["gpg", "--armor", "--export-secret-keys", recipient]

/-- Lines 144-147: probe the keystore, then either generate a key (printing
the generation banner first, line 37) or print the reuse notice. -/
def key_phase (recipient passphrase expire : String) (probeExit : Nat) :
    List SetupEvent :=
  SetupEvent.extCall (key_exists_argv recipient) false ::
    (if key_exists probeExit then
      [SetupEvent.info ("[setup] Reusing existing GPG key " ++ recipient)]
    else
      [SetupEvent.info ("[setup] Generating GPG key for " ++ recipient),
       SetupEvent.extCall (generate_key_argv recipient passphrase expire) false])

/-- `export_secret_key` (lines 55-68): run the armored export with captured
output, write it to `private-key.asc`, write its base64 encoding to
`private-key.asc.b64`. -/
def export_events (recipient : String) (secret : List Nat) : List SetupEvent :=
  [SetupEvent.info "[setup] Exporting private key artefacts",
   SetupEvent.extCall (export_argv recipient) true,
   SetupEvent.fileWrite "private-key.asc" secret,
   SetupEvent.fileWrite "private-key.asc.b64" (b64e secret),
   SetupEvent.info "[setup] Wrote private-key.asc and private-key.asc.b64"]

/-- The closing guidance print (lines 152-158). -/
def nextStepsMsg : String :=
  "Next steps: add private-key.asc.b64 to repo secret GPG_PRIVATE_KEY_B64; store the passphrase you just entered in GPG_PASSPHRASE; delete private-key.asc and private-key.asc.b64 after copying"

/-- `main` (lines 127-158): resolve the recipient, reject an empty recipient
or passphrase, probe/generate, require the plaintext source before the
encryption call (`encrypt_strategy`, lines 71-73), encrypt, export. -/
def setup_main (a : SetupArgs) (passphrase : String) (w : SetupWorld) :
    List SetupEvent × SetupOutcome :=
  let recipient := resolveRecipient a
  if recipient = "" then
    ([], SetupOutcome.fatal "GPG recipient name required.")
  else if passphrase = "" then
    ([], SetupOutcome.fatal "Passphrase cannot be empty.")
  else
    let kp := key_phase recipient passphrase a.expire w.probeExit
    if w.sourceExists = false then
      (kp, SetupOutcome.fatal
        (a.source ++ " not found. Create or decrypt your strategy first."))
    else
      (kp ++
        (SetupEvent.info ("[setup] Encrypting " ++ a.source ++ " to " ++ a.output) ::
         SetupEvent.extCall (encrypt_argv recipient a.source a.output) false ::
         export_events recipient w.exportedSecret) ++
        [SetupEvent.info nextStepsMsg],
       SetupOutcome.success)

/-- The file writes a trace performs, in order. -/
def writesOf : List SetupEvent → List (String × List Nat)
  | [] => []
  | SetupEvent.fileWrite p c :: t => (p, c) :: writesOf t
  | _ :: t => writesOf t

/-- The informational prints a trace performs, in order. -/
def infosOf : List SetupEvent → List String
  | [] => []
  | SetupEvent.info m :: t => m :: infosOf t
  | _ :: t => infosOf t

/-! ## EncryptionSetup: the `__main__` failure handler (lines 161-166) -/

/-- `subprocess.CalledProcessError` as the handler sees it: the command, its
exit code, and its captured stderr (`None` when the call did not capture). -/
structure CalledProcessError where
  cmd : List String
  returncode : Int
  stderrOut : Option (List Nat)

/-- The exception `run` (lines 15-20) raises when a checked call fails:
stderr is attached only when the call captured output. -/
def run_raises (cmd : List String) (capture : Bool) (toolStderr : List Nat)
    (rc : Int) : CalledProcessError :=
  ⟨cmd, rc, if capture then some toolStderr else none⟩

/-- ASCII/UTF-8 codes of a string, for text the handler itself emits. -/
def strBytes (s : String) : List Nat :=
  s.data.map Char.toNat

/-- Python `str(CalledProcessError)`. -/
def cpe_str (e : CalledProcessError) : String :=
  "Command " ++ toString e.cmd ++ " returned non-zero exit status " ++
    toString e.returncode ++ "."

/-- Lines 161-166: write the exception's captured stderr if present, else
its string form, to the process stderr; exit with the tool's exit code. -/
def toplevel_handler (e : CalledProcessError) : List Nat × Int :=
  ((match e.stderrOut with
    | some s => s
    | none => strBytes (cpe_str e)),
   e.returncode)

/-- Everything the operator sees on stderr when an external call fails,
plus the process exit code.  A non-capturing call lets the tool write its
stderr straight through to the operator before the exception propagates; a
capturing call holds it in the exception, and the handler replays it. -/
def tool_failure_observed (cmd : List String) (capture : Bool)
    (toolStderr : List Nat) (rc : Int) : List Nat × Int :=
  let e := run_raises cmd capture toolStderr rc
  let inherited := if capture then [] else toolStderr
  (inherited ++ (toplevel_handler e).1, (toplevel_handler e).2)

/-! ## Helper lemmas -/

theorem writesOf_append (xs ys : List SetupEvent) :
    writesOf (xs ++ ys) = writesOf xs ++ writesOf ys := by
  induction xs with
  | nil => rfl
  | cons e t ih => cases e <;> simp [writesOf, ih]

theorem infosOf_append (xs ys : List SetupEvent) :
    infosOf (xs ++ ys) = infosOf xs ++ infosOf ys := by
  induction xs with
  | nil => rfl
  | cons e t ih => cases e <;> simp [infosOf, ih]

theorem writesOf_key_phase (r p e : String) (pe : Nat) :
    writesOf (key_phase r p e pe) = [] := by
  unfold key_phase
  by_cases h : key_exists pe <;> simp [h, writesOf]

theorem infosOf_key_phase (r p e : String) (pe : Nat) :
    infosOf (key_phase r p e pe) =
      (if key_exists pe then ["[setup] Reusing existing GPG key " ++ r]
       else ["[setup] Generating GPG key for " ++ r]) := by
  unfold key_phase
  by_cases h : key_exists pe <;> simp [h, infosOf]

/-! ## Claim theorems -/

/-- C2: when the plaintext source file does not exist, the run ends in
`SystemExit` with the create-or-decrypt message (raised inside
`encrypt_strategy` before its gpg call), the encryption invocation and the
key-export invocation never appear in the trace, and no file — in
particular neither private-key.asc nor private-key.asc.b64 — is written. -/
theorem setup_missing_source (a : SetupArgs) (p : String) (w : SetupWorld)
    (hs : w.sourceExists = false) :
    writesOf (setup_main a p w).1 = []
    ∧ (∀ c, SetupEvent.extCall (encrypt_argv (resolveRecipient a) a.source a.output) c ∉
        (setup_main a p w).1)
    ∧ (∀ c, SetupEvent.extCall (export_argv (resolveRecipient a)) c ∉
        (setup_main a p w).1)
    ∧ (resolveRecipient a ≠ "" → p ≠ "" →
        (setup_main a p w).2 = SetupOutcome.fatal
          (a.source ++ " not found. Create or decrypt your strategy first.")) := by
  unfold setup_main
  by_cases hr : resolveRecipient a = ""
  · simp [hr, writesOf]
  by_cases hp : p = ""
  · simp [hr, hp, writesOf]
  refine ⟨?_, ?_, ?_, ?_⟩
  · simp [hr, hp, hs, writesOf_key_phase]
  · intro c
    simp only [hr, hp, hs, if_neg, if_pos, Bool.false_eq_true, not_false_eq_true]
    simp [key_phase, encrypt_argv, key_exists_argv, generate_key_argv]
    by_cases hk : key_exists w.probeExit <;> simp [hk]
  · intro c
    simp only [hr, hp, hs, if_neg, if_pos, Bool.false_eq_true, not_false_eq_true]
    simp [key_phase, export_argv, key_exists_argv, generate_key_argv]
    by_cases hk : key_exists w.probeExit <;> simp [hk]
  · intro _ _
    simp [hr, hp, hs]

/-- C2 witness: a concrete invocation with a missing source file ends in the
create-or-decrypt `SystemExit`. -/
theorem setup_missing_source_witness :
    (setup_main ⟨"", "alice", "1y", "strategy.py", "out.gpg"⟩ "pw" ⟨1, false, []⟩).2 =
      SetupOutcome.fatal
        ("strategy.py" ++ " not found. Create or decrypt your strategy first.") :=
  (setup_missing_source ⟨"", "alice", "1y", "strategy.py", "out.gpg"⟩ "pw"
    ⟨1, false, []⟩ rfl).2.2.2 (by decide) (by decide)

/-- C3: when the keystore probe exits 0 (a secret key exists for the
resolved identity), no key-generation invocation of any shape appears in
the trace, the informational reuse message is printed instead, and
`key_exists` maps every non-zero probe exit to `false` (treated as "key
does not exist", never escalated as an error). -/
theorem setup_probe_before_generate (a : SetupArgs) (p : String) (w : SetupWorld)
    (hr : resolveRecipient a ≠ "") (hp : p ≠ "") (hprobe : w.probeExit = 0) :
    (∀ pass expire c, SetupEvent.extCall
        (generate_key_argv (resolveRecipient a) pass expire) c ∉ (setup_main a p w).1)
    ∧ SetupEvent.info ("[setup] Reusing existing GPG key " ++ resolveRecipient a) ∈
        (setup_main a p w).1
    ∧ (∀ rc : Nat, rc ≠ 0 → key_exists rc = false) := by
  have hk : key_exists w.probeExit = true := by simp [key_exists, hprobe]
  refine ⟨?_, ?_, ?_⟩
  · intro pass expire c
    unfold setup_main
    by_cases hsrc : w.sourceExists = false
    · simp [hr, hp, hsrc, key_phase, hk, generate_key_argv, key_exists_argv]
    · simp [hr, hp, hsrc, key_phase, hk, export_events, generate_key_argv,
        key_exists_argv, encrypt_argv, export_argv]
  · unfold setup_main
    by_cases hsrc : w.sourceExists = false
    · simp [hr, hp, hsrc, key_phase, hk]
    · simp [hr, hp, hsrc, key_phase, hk, export_events]
  · intro rc hrc
    simp [key_exists, hrc]

/-- C3 witness: in a concrete run with a zero probe exit the reuse notice is
printed, and a non-zero probe exit (2) reads back as "no key". -/
theorem setup_probe_before_generate_witness :
    SetupEvent.info ("[setup] Reusing existing GPG key " ++
        resolveRecipient ⟨"", "alice", "1y", "strategy.py", "out.gpg"⟩) ∈
      (setup_main ⟨"", "alice", "1y", "strategy.py", "out.gpg"⟩ "pw" ⟨0, true, []⟩).1 :=
  (setup_probe_before_generate ⟨"", "alice", "1y", "strategy.py", "out.gpg"⟩ "pw"
    ⟨0, true, []⟩ (by decide) (by decide) rfl).2.1

/-- C4: on a successful run the only file writes are private-key.asc holding
the exported secret bytes and private-key.asc.b64 holding their base64
encoding, and base64-decoding the latter gives back the former
byte-for-byte. -/
theorem export_b64_decodes_to_asc (a : SetupArgs) (p : String) (w : SetupWorld)
    (hr : resolveRecipient a ≠ "") (hp : p ≠ "") (hsrc : w.sourceExists = true)
    (hbytes : ∀ b ∈ w.exportedSecret, b < 256) :
    writesOf (setup_main a p w).1 =
      [("private-key.asc", w.exportedSecret),
       ("private-key.asc.b64", b64e w.exportedSecret)]
    ∧ b64d (b64e w.exportedSecret) = some w.exportedSecret := by
  constructor
  · unfold setup_main
    by_cases hk : key_exists w.probeExit <;>
      simp [hr, hp, hsrc, hk, writesOf_append, key_phase, export_events, writesOf]
  · exact b64_roundtrip w.exportedSecret hbytes

/-- C4 witness: a concrete export round-trips. -/
theorem export_b64_decodes_to_asc_witness :
    b64d (b64e [0, 77, 255, 10, 200]) = some [0, 77, 255, 10, 200] :=
  (export_b64_decodes_to_asc ⟨"", "alice", "1y", "strategy.py", "out.gpg"⟩ "pw"
    ⟨0, true, [0, 77, 255, 10, 200]⟩ (by decide) (by decide) rfl (by decide)).2

/-- C1 counterexample: in a concrete run that generates a key (probe exit 1),
the trace contains an external invocation whose argv list contains the
interactively acquired passphrase — `generate_key` (lines 38-52) passes it
on the gpg command line right after the literal `--passphrase` flag. -/
theorem passphrase_in_argv_cex :
    SetupEvent.extCall (generate_key_argv "alice" "hunter2" "1y") false ∈
      (setup_main ⟨"", "alice", "1y", "strategy.py", "strategy.py.gpg"⟩ "hunter2"
        ⟨1, true, []⟩).1
    ∧ "hunter2" ∈ generate_key_argv "alice" "hunter2" "1y" := by decide

/-- The fixed strings EncryptionSetup itself puts into gpg argv lists. -/
def gpg_flag_strings : List String :=
  ["gpg", "--batch", "--list-secret-keys", "--passphrase", "--pinentry-mode",
   "loopback", "--quick-gen-key", "rsa4096", "sign,encrypt", "--yes",
   "--output", "--encrypt", "--recipient", "--armor", "--export-secret-keys"]

/-- Every external invocation in a trace of `setup_main` is one of the four
gpg calls the source issues, with the argv the source builds for it. -/
theorem extCall_argv_cases (a : SetupArgs) (p : String) (w : SetupWorld)
    (argv : List String) (c : Bool)
    (h : SetupEvent.extCall argv c ∈ (setup_main a p w).1) :
    argv = key_exists_argv (resolveRecipient a)
    ∨ argv = generate_key_argv (resolveRecipient a) p a.expire
    ∨ argv = encrypt_argv (resolveRecipient a) a.source a.output
    ∨ argv = export_argv (resolveRecipient a) := by
  unfold setup_main at h
  by_cases hr : resolveRecipient a = "" <;>
    by_cases hp : p = "" <;>
      by_cases hsrc : w.sourceExists = false <;>
        by_cases hk : key_exists w.probeExit <;>
          simp_all [key_phase, export_events] <;> tauto

/-- C1 amended: the passphrase reaches exactly one external invocation, the
key-generation call — every other invocation whose argv contains it is that
call — and the rest of the observable run is passphrase-independent: the
file writes and the informational prints of the trace are identical for any
two non-empty passphrases, so the passphrase is never echoed, logged, or
written to persistent storage.  The disequality hypotheses rule out a
passphrase that coincides with a fixed flag or another configured value. -/
theorem passphrase_confined (a : SetupArgs) (w : SetupWorld) (p q : String)
    (hp : p ≠ "") (hq : q ≠ "")
    (hpf : ¬ p ∈ gpg_flag_strings)
    (hpr : p ≠ resolveRecipient a) (hps : p ≠ a.source) (hpo : p ≠ a.output) :
    (∀ argv c, SetupEvent.extCall argv c ∈ (setup_main a p w).1 → p ∈ argv →
      argv = generate_key_argv (resolveRecipient a) p a.expire)
    ∧ writesOf (setup_main a p w).1 = writesOf (setup_main a q w).1
    ∧ infosOf (setup_main a p w).1 = infosOf (setup_main a q w).1 := by
  simp only [gpg_flag_strings, List.mem_cons, List.not_mem_nil, or_false,
    not_or] at hpf
  obtain ⟨h1, h2, h3, h4, h5, h6, h7, h8, h9, h10, h11, h12, h13, h14, h15⟩ := hpf
  by_cases hr : resolveRecipient a = ""
  · refine ⟨?_, ?_, ?_⟩ <;> simp [setup_main, hr]
  refine ⟨?_, ?_, ?_⟩
  · intro argv c hmem hpin
    rcases extCall_argv_cases a p w argv c hmem with rfl | rfl | rfl | rfl
    · simp only [key_exists_argv, List.mem_cons, List.not_mem_nil, or_false] at hpin
      tauto
    · rfl
    · simp only [encrypt_argv, List.mem_cons, List.not_mem_nil, or_false] at hpin
      tauto
    · simp only [export_argv, List.mem_cons, List.not_mem_nil, or_false] at hpin
      tauto
  · unfold setup_main
    by_cases hsrc : w.sourceExists = false <;>
      by_cases hk : key_exists w.probeExit <;>
        simp [hr, hp, hq, hsrc, hk, key_phase, export_events,
          writesOf_append, writesOf]
  · unfold setup_main
    by_cases hsrc : w.sourceExists = false <;>
      by_cases hk : key_exists w.probeExit <;>
        simp [hr, hp, hq, hsrc, hk, key_phase, export_events,
          infosOf_append, infosOf]

/-- C1 amended witness: with two concrete non-colliding passphrases the file
writes of the two runs coincide. -/
theorem passphrase_confined_witness :
    writesOf (setup_main ⟨"", "alice", "1y", "strategy.py", "strategy.py.gpg"⟩
        "pw1" ⟨1, true, [1, 2]⟩).1 =
      writesOf (setup_main ⟨"", "alice", "1y", "strategy.py", "strategy.py.gpg"⟩
        "pw2" ⟨1, true, [1, 2]⟩).1 :=
  (passphrase_confined ⟨"", "alice", "1y", "strategy.py", "strategy.py.gpg"⟩
    ⟨1, true, [1, 2]⟩ "pw1" "pw2" (by decide) (by decide) (by decide)
    (by decide) (by decide) (by decide)).2.1

/-- C6: when an external gpg call fails during generation, encryption, or
export, the process exits with the tool's own exit code, the operator sees
the tool's stderr in full — directly inherited for a non-capturing call,
replayed verbatim by the `__main__` handler for a capturing one — and for a
capturing call the operator-visible stderr is exactly the tool's stderr. -/
theorem tool_failure_propagates (cmd : List String) (capture : Bool)
    (toolStderr : List Nat) (rc : Int) (hrc : rc ≠ 0) :
    (tool_failure_observed cmd capture toolStderr rc).2 = rc
    ∧ (∃ rest, (tool_failure_observed cmd capture toolStderr rc).1 = toolStderr ++ rest)
    ∧ (capture = true → (tool_failure_observed cmd capture toolStderr rc).1 = toolStderr) := by
  cases capture <;>
    simp [tool_failure_observed, run_raises, toplevel_handler]

/-- C6 witness: a concrete captured export failure exits with the tool's
exit code 2. -/
theorem tool_failure_propagates_witness :
    (tool_failure_observed ["gpg", "--armor", "--export-secret-keys", "alice"]
      true [7, 8, 9] 2).2 = 2 :=
  (tool_failure_propagates ["gpg", "--armor", "--export-secret-keys", "alice"]
    true [7, 8, 9] 2 (by decide)).1

/-- The message of the first configuration check that fails, in the order
register.py performs them. -/
def firstConfigError (env : Env) : String :=
  if SERVER_URL env = "" then "SERVER_URL environment variable not set"
  else if GAME_TOKEN env = "" then "GAME_TOKEN environment variable not set"
  else if PLAYER_NAME env = "" then "PLAYER_NAME environment variable not set"
  else if GITHUB_REPO_val env = "" then
    "GITHUB_REPO or GITHUB_REPOSITORY environment variable not set"
  else "SERVER_URL must include scheme (http/https); got " ++ SERVER_URL env

/-- C7: whenever one of the four required values is missing (empty after
stripping) or the server URL lacks an http/https scheme, the configuration
phase ends in `SystemExit` with the value-specific message of the first
failing check — it never reaches the `proceed` branch, so no HTTP request
is made. -/
theorem register_rejects_bad_config (env : Env)
    (h : SERVER_URL env = "" ∨ GAME_TOKEN env = "" ∨ PLAYER_NAME env = "" ∨
      GITHUB_REPO_val env = "" ∨ urlSchemeOk (SERVER_URL env) = false) :
    register_main env = RegOutcome.fatal (firstConfigError env) := by
  unfold register_main firstConfigError
  split_ifs <;> simp_all

/-- C7 witness: the empty environment is rejected with the SERVER_URL
message, with no request. -/
theorem register_rejects_bad_config_witness :
    register_main (fun _ => none) =
      RegOutcome.fatal (firstConfigError (fun _ => none)) :=
  register_rejects_bad_config (fun _ => none) (Or.inl (by decide))

/-- C8: a 2xx response whose body did not parse as JSON produces the
"response was not JSON" notice and the run returns normally with exit
code 0, with no parse crash and no failure status. -/
theorem response_non_json_ok (sc : Nat) (text : String)
    (h2 : 200 ≤ sc) (h3 : sc < 300) :
    handleResponse sc text none = Except.ok RespOutcome.notJsonNotice
    ∧ respExitCode (handleResponse sc text none) = 0 := by
  have hok : response_ok sc = true := by
    simp only [response_ok, decide_eq_true_eq]
    omega
  refine ⟨?_, ?_⟩ <;> simp [handleResponse, hok, respExitCode]

/-- C8 witness: HTTP 200 with an unparseable body. -/
theorem response_non_json_ok_witness :
    handleResponse 200 "plain text" none = Except.ok RespOutcome.notJsonNotice :=
  (response_non_json_ok 200 "plain text" (by decide) (by decide)).1

/-- C9: when GITHUB_REPOSITORY is defined but empty or whitespace-only, the
repository identifier resolves to empty even if GITHUB_REPO is defined and
non-empty — `os.getenv` only falls back to its default when the variable is
entirely unset — so, with the other three values valid, the run ends in the
repository-missing `SystemExit`. -/
theorem repo_fallback_not_consulted (env : Env) (s v : String)
    (hdef : env "GITHUB_REPOSITORY" = some s) (hempty : pyStrip s = "")
    (hrepo : env "GITHUB_REPO" = some v) (hv : pyStrip v ≠ "")
    (hsrv : SERVER_URL env ≠ "") (htok : GAME_TOKEN env ≠ "")
    (hpn : PLAYER_NAME env ≠ "") :
    register_main env = RegOutcome.fatal
      "GITHUB_REPO or GITHUB_REPOSITORY environment variable not set" := by
  have hrv : GITHUB_REPO_val env = "" := by
    unfold GITHUB_REPO_val
    rw [hdef]
    simpa using hempty
  simp [register_main, hrv, hsrv, htok, hpn]

/-- A concrete environment for C9: GITHUB_REPOSITORY set to the empty
string, GITHUB_REPO set to a real identifier, the rest valid. -/
def c9Env : Env := fun k =>
  if k = "SERVER_URL" then some "http://srv"
  else if k = "GAME_TOKEN" then some "tok"
  else if k = "GITHUB_REPOSITORY" then some ""
  else if k = "GITHUB_REPO" then some "org/repo" else none

/-- C9 witness. -/
theorem repo_fallback_not_consulted_witness :
    register_main c9Env = RegOutcome.fatal
      "GITHUB_REPO or GITHUB_REPOSITORY environment variable not set" :=
  repo_fallback_not_consulted c9Env "" "org/repo" (by decide) (by decide)
    (by decide) (by decide) (by decide) (by decide) (by decide)

/-- Shared helper: an empty stripped value at any of the four checks makes
the configuration phase fatal. -/
theorem reg_fatal_of_empty_value (env : Env)
    (h : SERVER_URL env = "" ∨ GAME_TOKEN env = "" ∨ PLAYER_NAME env = "" ∨
      GITHUB_REPO_val env = "") :
    (register_main env).isFatal = true := by
  simp only [register_main]
  split_ifs <;> simp_all [RegOutcome.isFatal]

/-- C10: all four configuration values are whitespace-stripped before
validation and use — a value that strips to empty is rejected exactly like
a missing one, and when the request is built, its URL, Authorization
header, and JSON body fields carry the stripped forms (the URL additionally
with trailing slashes removed and `/register` appended). -/
theorem register_strips_config (env : Env) :
    (∀ raw, env "SERVER_URL" = some raw → pyStrip raw = "" →
      (register_main env).isFatal = true)
    ∧ (∀ raw, env "GAME_TOKEN" = some raw → pyStrip raw = "" →
      (register_main env).isFatal = true)
    ∧ (∀ raw, env "PLAYER_NAME" = some raw → pyStrip raw = "" →
      (register_main env).isFatal = true)
    ∧ (∀ raw, env "GITHUB_REPOSITORY" = some raw → pyStrip raw = "" →
      (register_main env).isFatal = true)
    ∧ (∀ req, register_main env = RegOutcome.proceed req →
      req.url = pyRstripSlash (pyStrip (getenv env "SERVER_URL" "")) ++ "/register"
      ∧ req.authHeader = "Bearer " ++ pyStrip (getenv env "GAME_TOKEN" "")
      ∧ req.playerName = pyStrip (getenv env "PLAYER_NAME" "encrypted-template")
      ∧ req.githubRepo =
          pyStrip ((env "GITHUB_REPOSITORY").getD ((env "GITHUB_REPO").getD ""))) := by
  refine ⟨?_, ?_, ?_, ?_, ?_⟩
  · intro raw hdef hstrip
    refine reg_fatal_of_empty_value env (Or.inl ?_)
    simp [SERVER_URL, getenv, hdef, hstrip]
  · intro raw hdef hstrip
    refine reg_fatal_of_empty_value env (Or.inr (Or.inl ?_))
    simp [GAME_TOKEN, getenv, hdef, hstrip]
  · intro raw hdef hstrip
    refine reg_fatal_of_empty_value env (Or.inr (Or.inr (Or.inl ?_)))
    simp [PLAYER_NAME, getenv, hdef, hstrip]
  · intro raw hdef hstrip
    refine reg_fatal_of_empty_value env (Or.inr (Or.inr (Or.inr ?_)))
    simp [GITHUB_REPO_val, hdef, hstrip]
  · intro req hreq
    simp only [register_main] at hreq
    split_ifs at hreq
    cases hreq
    exact ⟨rfl, rfl, rfl, rfl⟩

/-- A concrete environment for C10 with whitespace-padded values. -/
def c10Env : Env := fun k =>
  if k = "SERVER_URL" then some " https://srv.example// "
  else if k = "GAME_TOKEN" then some " tok "
  else if k = "PLAYER_NAME" then some " Alice "
  else if k = "GITHUB_REPOSITORY" then some " org/r " else none

/-- C10 witness: the request built from padded values carries the stripped
forms. -/
theorem register_strips_config_witness :
    RegRequest.url ⟨"https://srv.example/register", "Bearer tok", "Alice", "org/r", 10⟩ =
      pyRstripSlash (pyStrip (getenv c10Env "SERVER_URL" "")) ++ "/register" :=
  ((register_strips_config c10Env).2.2.2.2
    ⟨"https://srv.example/register", "Bearer tok", "Alice", "org/r", 10⟩ (by decide)).1

/-- Unfolding lemma for `Except.bind` on a success value. -/
theorem exceptOkBind {e a b : Type} (x : a) (f : a → Except e b) :
    (Except.ok x : Except e a).bind f = f x := rfl

/-- C5 counterexample: a 200 response whose JSON payload carries a truthy
non-string status, `{"status": 1}`, does not reach the fallback print —
`(payload.get("status") or "").lower()` raises `AttributeError` on the
integer, so the run crashes instead of terminating without error. -/
theorem status_nonstring_crashes :
    handleResponse 200 "" (some (JVal.jobj [("status", JVal.jn 1)])) =
      Except.error PyErr.attributeError := rfl

/-- C5 amended: for a success response whose payload is a JSON object in
which `payload.get("status") or ""` yields a string `s` — the status field
is a string, or is absent or otherwise falsy (then `s = ""`) — the handler
branches on the lowercased `s`: `"registered"` (any letter case) prints the
confirmation with the returned player name and id, `"already_registered"`
(any letter case) prints the confirmation with the returned id, and
anything else prints the raw payload as a fallback; all three branches
terminate without error.  (A truthy non-string status instead raises an
unhandled `AttributeError`.) -/
theorem status_branching (sc : Nat) (text : String)
    (fs : List (String × JVal)) (s : String)
    (hok : response_ok sc = true)
    (hst : pyOr ((fs.lookup "status").getD JVal.null) (JVal.js "") = JVal.js s) :
    handleResponse sc text (some (JVal.jobj fs)) = Except.ok
      (if pyLower s = "registered" then
        RespOutcome.registeredMsg ((fs.lookup "player_name").getD JVal.null)
          ((fs.lookup "player_id").getD JVal.null)
      else if pyLower s = "already_registered" then
        RespOutcome.alreadyMsg ((fs.lookup "player_name").getD JVal.null)
          ((fs.lookup "player_id").getD JVal.null)
      else RespOutcome.fallback (JVal.jobj fs))
    ∧ respExitCode (handleResponse sc text (some (JVal.jobj fs))) = 0 := by
  have hmain : handleResponse sc text (some (JVal.jobj fs)) = Except.ok
      (if pyLower s = "registered" then
        RespOutcome.registeredMsg ((fs.lookup "player_name").getD JVal.null)
          ((fs.lookup "player_id").getD JVal.null)
      else if pyLower s = "already_registered" then
        RespOutcome.alreadyMsg ((fs.lookup "player_name").getD JVal.null)
          ((fs.lookup "player_id").getD JVal.null)
      else RespOutcome.fallback (JVal.jobj fs)) := by
    unfold handleResponse
    rw [hok]
    simp only [Bool.not_true, Bool.false_eq_true, if_false, pyDictGet,
      exceptOkBind, hst, pyLowerStr]
    split_ifs <;> simp [exceptOkBind]
  refine ⟨hmain, ?_⟩
  rw [hmain]
  split_ifs <;> rfl

/-- A concrete payload for the C5 witness: an upper-case status. -/
def regPayload : List (String × JVal) :=
  [("status", JVal.js "REGISTERED"), ("player_name", JVal.js "bot1"),
   ("player_id", JVal.jn 42)]

/-- C5 witness: the upper-case status is branched case-insensitively. -/
theorem status_branching_witness :
    handleResponse 200 "" (some (JVal.jobj regPayload)) = Except.ok
      (RespOutcome.registeredMsg (JVal.js "bot1") (JVal.jn 42)) := by
  have htl : pyLower "REGISTERED" = "registered" := rfl
  have h := (status_branching 200 "" regPayload "REGISTERED" (by decide) rfl).1
  rw [htl] at h
  simpa [regPayload, List.lookup] using h
